import Mathlib

/-!
Verification development for the IP diagnostics repository: a shallow
embedding of the threat-scoring engine (`src/lib/ipAnalysis.ts`), the
serverless geolocation proxy (`netlify/functions/ip-proxy.js`), the alert
query layer (`src/lib/alertSystem.ts`), and the SQL schema's row-level
security policies and triggers (`supabase/migrations/*.sql`), together
with theorems settling the specification's claims about them.
-/

namespace IPRepo

/-! ## Threat-level engine (`src/lib/ipAnalysis.ts`) -/

/-- The three threat buckets returned by `assessThreatLevel`. -/
inductive ThreatLevel where
  | low
  | medium
  | high
deriving DecidableEq, Repr

/-- `IPAnalysisEngine.isKnownMaliciousIP`: membership in the hardcoded
known-bad list. -/
def isKnownMaliciousIP (ip : String) : Bool :=
  ["95.223.57.198", "185.220.101.1", "46.166.139.111"].contains ip

/-- JavaScript `String.prototype.startsWith`, modelled on the character
lists of the two strings so that it evaluates inside the kernel. -/
def strStartsWith (s p : String) : Bool :=
  p.toList.isPrefixOf s.toList

/-- `IPAnalysisEngine.isSuspiciousRange`: the IP starts with one of the
hardcoded suspicious prefixes. -/
def isSuspiciousRange (ip : String) : Bool :=
  ["95.223.", "185.220.", "46.166."].any (fun range => strStartsWith ip range)

/-- `IPAnalysisEngine.isDatacenterIP`: the source delegates directly to
`isSuspiciousRange`. -/
def isDatacenterIP (ip : String) : Bool :=
  isSuspiciousRange ip

/-- The accumulated score built up inside `assessThreatLevel`:
`+5` for a known-malicious IP, `+3` for a suspicious range,
`+2` for a datacenter IP. -/
def threatScore (ip : String) : Nat :=
  (if isKnownMaliciousIP ip then 5 else 0) +
  (if isSuspiciousRange ip then 3 else 0) +
  (if isDatacenterIP ip then 2 else 0)

/-- `IPAnalysisEngine.assessThreatLevel`: bucket the score with the
source's thresholds (`>= 5` high, `>= 2` medium, otherwise low). -/
def assessThreatLevel (ip : String) : ThreatLevel :=
  if threatScore ip ≥ 5 then .high
  else if threatScore ip ≥ 2 then .medium
  else .low

/-- `IPAnalysisEngine.analyzeBatch`, restricted to the `results` array it
builds: each IP is analyzed in input order; an analysis that throws is
caught, logged, and contributes nothing. The per-IP analysis is abstracted
as a function into `Except` (a thrown exception is `.error`). -/
def analyzeBatch {α : Type} (analyze : String → Except Unit α) :
    List String → List α
  | [] => []
  | ip :: rest =>
    match analyze ip with
    | .ok r => r :: analyzeBatch analyze rest
    | .error _ => analyzeBatch analyze rest

/-! ## Serverless geolocation proxy (`netlify/functions/ip-proxy.js`) -/

/-- JSON values, as produced by `JSON.parse` and consumed by
`JSON.stringify`. -/
inductive Json where
  | null
  | bool (b : Bool)
  | num (q : ℚ)
  | str (s : String)
  | arr (xs : List Json)
  | obj (fields : List (String × Json))

/-- Outcome of the single `fetch` to the third-party batch geolocation
API: the promise rejects (`fetchError`), or an HTTP response arrives with
a status code and, when its body is valid JSON, the parsed body
(`none` models `response.json()` throwing). -/
inductive UpstreamOutcome where
  | fetchError
  | response (status : Nat) (body : Option Json)

/-- `Response.ok` of the Fetch API: status in the range 200–299. -/
def statusOk (status : Nat) : Bool :=
  200 ≤ status && status ≤ 299

/-- A response body written by the handler: the literal empty string
(preflight), or `JSON.stringify` of a JSON value. -/
inductive RespBody where
  | empty
  | json (j : Json)

/-- An HTTP response of the Netlify function (headers are the constant
CORS set and are not modelled). -/
structure HttpResponse where
  statusCode : Nat
  body : RespBody

/-- Body of the 400 response for a non-array request body. -/
def invalidBodyError : Json :=
  .obj [("error", .str "Invalid request body. Expected array of IP queries.")]

/-- Body of the 400 response when more than 50 IPs are submitted. -/
def tooManyError : Json :=
  .obj [("error", .str "Too many IPs. Maximum 50 allowed.")]

/-- Body of the catch-all 500 response. -/
def internalError : Json :=
  .obj [("error", .str "Internal server error"),
        ("message", .str "Failed to analyze IP addresses")]

/-- The `exports.handler` of `ip-proxy.js`. Inputs: the HTTP method, the
outcome of `JSON.parse` on the request body (`none` models a parse
exception), and the outcome the upstream API would produce. Returns the
HTTP response together with the list of request bodies actually sent
upstream. The source's `!requestBody || !Array.isArray(requestBody)`
guard admits exactly the JSON arrays, since every array is truthy. -/
def ipProxyHandler (method : String) (parsedBody : Option Json)
    (upstream : UpstreamOutcome) : HttpResponse × List Json :=
  if method = "OPTIONS" then (⟨200, .empty⟩, [])
  else if method ≠ "POST" then
    (⟨405, .json (.obj [("error", .str "Method not allowed")])⟩, [])
  else
    match parsedBody with
    | none => (⟨500, .json internalError⟩, [])
    | some j =>
      match j with
      | .arr xs =>
        if xs.length > 50 then (⟨400, .json tooManyError⟩, [])
        else
          match upstream with
          | .fetchError => (⟨500, .json internalError⟩, [.arr xs])
          | .response status body =>
            if statusOk status then
              match body with
              | some d => (⟨200, .json d⟩, [.arr xs])
              | none => (⟨500, .json internalError⟩, [.arr xs])
            else (⟨500, .json internalError⟩, [.arr xs])
      | _ => (⟨400, .json invalidBodyError⟩, [])

/-- The upstream call failed: the fetch promise rejected, or the HTTP
status is not OK (the source then throws, landing in the catch). -/
def upstreamFails : UpstreamOutcome → Bool
  | .fetchError => true
  | .response status _ => !statusOk status

/-! ## Alert queries (`src/lib/alertSystem.ts`) -/

/-- A row of `alert_notifications`, restricted to the columns the
`getUnreadAlerts` query filters and orders on, plus its id. Timestamps
are rationals (seconds). -/
structure AlertRow where
  id : Nat
  isRead : Bool
  createdAt : ℚ
  expiresAt : ℚ
deriving DecidableEq

/-- Insert one row into a list kept in descending `created_at` order. -/
def insertByCreatedAtDesc (a : AlertRow) : List AlertRow → List AlertRow
  | [] => [a]
  | b :: rest =>
    if b.createdAt ≤ a.createdAt then a :: b :: rest
    else b :: insertByCreatedAtDesc a rest

/-- Sort rows by descending `created_at` (the query's
`order('created_at', { ascending: false })`). -/
def sortByCreatedAtDesc : List AlertRow → List AlertRow
  | [] => []
  | a :: rest => insertByCreatedAtDesc a (sortByCreatedAtDesc rest)

/-- `AlertSystem.getUnreadAlerts`: select rows with `is_read = false` and
`expires_at < now`, ordered by descending `created_at`. `now` is the
query-time timestamp `new Date().toISOString()`. -/
def getUnreadAlerts (table : List AlertRow) (now : ℚ) : List AlertRow :=
  sortByCreatedAtDesc
    (table.filter (fun a => !a.isRead && decide (a.expiresAt < now)))

/-! ## Row-level security policies (`supabase/migrations/*.sql`) -/

/-- The two database roles the policies target. -/
inductive Role where
  | anon
  | authenticated
deriving DecidableEq

/-- A caller: its role and `auth.uid()` (`none` for the anonymous role). -/
structure Caller where
  role : Role
  uid : Option Nat
deriving DecidableEq

/-- SQL equality on nullable values: `NULL = x` is never true. -/
def sqlEq {α : Type} [DecidableEq α] : Option α → Option α → Bool
  | some x, some y => decide (x = y)
  | _, _ => false

/-- An `ip_tracking_links` row: its id and its (nullable) owner. -/
structure LinkRow where
  id : Nat
  userId : Option Nat
deriving DecidableEq

/-- An `ip_analysis_sessions` row: its id and its (nullable) owner. -/
structure AnalysisSessionRow where
  id : Nat
  userId : Option Nat
deriving DecidableEq

/-- A `team_members` row, restricted to the columns the policies read:
team, member, `is_active`, and the `(permissions->>'write')::boolean`
cast (`none` when the jsonb key is absent). -/
structure TeamMemberRow where
  teamId : Nat
  userId : Nat
  isActive : Bool
  writePerm : Option Bool
deriving DecidableEq

/-- The parent tables the subquery-based policies consult. -/
structure PolicyDB where
  trackingLinks : List LinkRow
  analysisSessions : List AnalysisSessionRow
  teamMembers : List TeamMemberRow
deriving DecidableEq

/-- The policy subquery `tracking_link_id IN (SELECT id FROM
ip_tracking_links WHERE user_id = auth.uid())`. -/
def linkOwned (c : Caller) (db : PolicyDB) (linkId : Option Nat) : Bool :=
  db.trackingLinks.any
    (fun l => sqlEq (some l.id) linkId && sqlEq c.uid l.userId)

/-- The policy subquery `session_id IN (SELECT id FROM
ip_analysis_sessions WHERE user_id = auth.uid())`. -/
def analysisSessionOwned (c : Caller) (db : PolicyDB)
    (sessionId : Option Nat) : Bool :=
  db.analysisSessions.any
    (fun s => sqlEq (some s.id) sessionId && sqlEq c.uid s.userId)

/-- A SQL statement class, as row-level-security policies classify it. -/
inductive SqlOp where
  | select
  | insert
  | update
  | delete
deriving DecidableEq

/-- `ip_tracking_links` access: one `FOR ALL TO authenticated` policy
with `USING`/`WITH CHECK` both `auth.uid() = user_id`. -/
def trackingLinksAllowed (c : Caller) (ownerId : Option Nat)
    (_op : SqlOp) : Bool :=
  decide (c.role = .authenticated) && sqlEq c.uid ownerId

/-- `visitor_ip_logs` access: authenticated may SELECT rows of their own
tracking links; anon may INSERT anything (`WITH CHECK (true)`). -/
def visitorLogsAllowed (c : Caller) (db : PolicyDB)
    (linkId : Option Nat) (op : SqlOp) : Bool :=
  match op with
  | .select => decide (c.role = .authenticated) && linkOwned c db linkId
  | .insert => decide (c.role = .anon)
  | _ => false

/-- `visitor_sessions` access: authenticated may SELECT rows of their own
tracking links; anon has a `FOR ALL` policy with `USING (true)` and
`WITH CHECK (true)`. -/
def visitorSessionsAllowed (c : Caller) (db : PolicyDB)
    (linkId : Option Nat) (op : SqlOp) : Bool :=
  decide (c.role = .anon) ||
  (decide (c.role = .authenticated) && decide (op = .select) &&
    linkOwned c db linkId)

/-- `ip_anomaly_detection` access: authenticated may SELECT rows of their
own tracking links; anon may INSERT anything. -/
def anomalyDetectionAllowed (c : Caller) (db : PolicyDB)
    (linkId : Option Nat) (op : SqlOp) : Bool :=
  (decide (c.role = .anon) && decide (op = .insert)) ||
  (decide (c.role = .authenticated) && decide (op = .select) &&
    linkOwned c db linkId)

/-- The policy subquery `team_id IN (SELECT team_id FROM team_members
WHERE user_id = auth.uid() AND is_active = true)` of the teams
migration. -/
def teamMemberOf (c : Caller) (db : PolicyDB) (teamId : Option Nat) :
    Bool :=
  db.teamMembers.any
    (fun m => sqlEq (some m.teamId) teamId &&
      sqlEq c.uid (some m.userId) && m.isActive)

/-- The policy subquery `team_id IN (SELECT tm.team_id FROM team_members
tm WHERE tm.user_id = auth.uid() AND tm.is_active = true AND
(tm.permissions->>'write')::boolean = true)`. -/
def writableTeamMemberOf (c : Caller) (db : PolicyDB)
    (teamId : Option Nat) : Bool :=
  db.teamMembers.any
    (fun m => sqlEq (some m.teamId) teamId &&
      sqlEq c.uid (some m.userId) && m.isActive &&
      decide (m.writePerm = some true))

/-- The `USING` clause of the teams migration's own-or-team policies:
`auth.uid() = user_id OR team_id IN (<active memberships>)`, gated on
the `authenticated` role. -/
def teamUsingClause (c : Caller) (db : PolicyDB)
    (ownerId teamId : Option Nat) : Bool :=
  decide (c.role = .authenticated) &&
  (sqlEq c.uid ownerId || teamMemberOf c db teamId)

/-- The `WITH CHECK` clause of the teams migration's own-or-team
policies: `auth.uid() = user_id OR team_id IN (<active memberships with
write permission>)`, gated on the `authenticated` role. -/
def teamCheckClause (c : Caller) (db : PolicyDB)
    (ownerId teamId : Option Nat) : Bool :=
  decide (c.role = .authenticated) &&
  (sqlEq c.uid ownerId || writableTeamMemberOf c db teamId)

/-- A `FOR ALL` policy with distinct `USING`/`WITH CHECK` clauses, per
statement class: SELECT and DELETE read the target row under `USING`,
INSERT checks the new row under `WITH CHECK`, and UPDATE needs both. -/
def teamTableAllowed (c : Caller) (db : PolicyDB)
    (ownerId teamId : Option Nat) (op : SqlOp) : Bool :=
  match op with
  | .select => teamUsingClause c db ownerId teamId
  | .delete => teamUsingClause c db ownerId teamId
  | .insert => teamCheckClause c db ownerId teamId
  | .update =>
    teamUsingClause c db ownerId teamId &&
    teamCheckClause c db ownerId teamId

/-- `ip_analysis_sessions` access: the teams migration
(`src/unnamed/part_004`) drops the original owner-only policy and
installs the own-or-team policy. -/
def analysisSessionsAllowed (c : Caller) (db : PolicyDB)
    (ownerId teamId : Option Nat) (op : SqlOp) : Bool :=
  teamTableAllowed c db ownerId teamId op

/-- `ip_analysis_results` access: `FOR ALL TO authenticated` with a
`USING` subquery over the caller's analysis sessions (no separate
`WITH CHECK`, so the `USING` clause also gates writes); the teams
migration leaves this policy untouched. -/
def analysisResultsAllowed (c : Caller) (db : PolicyDB)
    (sessionId : Option Nat) (_op : SqlOp) : Bool :=
  decide (c.role = .authenticated) && analysisSessionOwned c db sessionId

/-- `performance_diagnostics` access: the teams migration drops the
original owner-only policy and installs the own-or-team policy. -/
def performanceDiagnosticsAllowed (c : Caller) (db : PolicyDB)
    (ownerId teamId : Option Nat) (op : SqlOp) : Bool :=
  teamTableAllowed c db ownerId teamId op

/-- `program_analysis` access: the teams migration drops the original
owner-only policy and installs the own-or-team policy. -/
def programAnalysisAllowed (c : Caller) (db : PolicyDB)
    (ownerId teamId : Option Nat) (op : SqlOp) : Bool :=
  teamTableAllowed c db ownerId teamId op

/-! ## Visitor tracking triggers (`20250619175042_empty_violet.sql`)

A `visitor_ip_logs` insert runs `detect_ip_anomalies` (BEFORE) and
`update_visitor_session` (AFTER). Timestamps are rationals (seconds);
`numeric` coordinates are rationals; nullable columns are `Option`. -/

/-- A `visitor_ip_logs` row, restricted to the columns the two triggers
read or write. -/
structure VisitorLog where
  id : Nat
  trackingLinkId : Option Nat
  ipAddress : String
  country : Option String
  userAgent : Option String
  latitude : Option ℚ
  longitude : Option ℚ
  isTor : Bool
  isVpn : Bool
  isHosting : Bool
  sessionId : Option String
  pageViews : Int
  isSuspicious : Bool
  anomalyScore : ℚ
  createdAt : ℚ
deriving DecidableEq

/-- The `anomaly_type` CHECK constraint's ten admissible values. -/
inductive AnomalyType where
  | rapidLocationChange
  | suspiciousIpRange
  | torUsage
  | vpnUsage
  | datacenterIp
  | blacklistedIp
  | unusualUserAgent
  | highFrequencyAccess
  | geographicAnomaly
  | timeAnomaly
deriving DecidableEq

/-- The `severity` CHECK constraint's admissible values. -/
inductive Severity where
  | low
  | medium
  | high
  | critical
deriving DecidableEq

/-- An `ip_anomaly_detection` row, restricted to the columns the claims
mention (description, confidence and evidence are free-text payload). -/
structure AnomalyRow where
  visitorLogId : Nat
  trackingLinkId : Option Nat
  anomalyType : AnomalyType
  severity : Severity
deriving DecidableEq

/-- A `visitor_sessions` row as maintained by `update_visitor_session`.
The array columns hold nullable elements because the trigger's outer
`array_append(..., NULL)` appends a SQL `NULL` on every update. -/
structure SessionRow where
  trackingLinkId : Option Nat
  sessionId : String
  ipAddress : String
  firstVisit : ℚ
  lastVisit : ℚ
  totalVisits : Nat
  totalPageViews : Int
  uniqueIps : List (Option String)
  countries : List (Option String)
  userAgents : List (Option String)
  isSuspicious : Bool
deriving DecidableEq

/-- The `WHERE` filter of the trigger's `prev_visit` query: same
(non-null-equal) `tracking_link_id` and `session_id`, a different row,
and non-null latitude and longitude. -/
def matchesPrev (new r : VisitorLog) : Bool :=
  sqlEq r.trackingLinkId new.trackingLinkId &&
  sqlEq r.sessionId new.sessionId &&
  decide (r.id ≠ new.id) &&
  r.latitude.isSome && r.longitude.isSome

/-- Keep the row with the later `created_at` (the earlier-listed row on
a tie). -/
def laterOf (acc r : VisitorLog) : VisitorLog :=
  if acc.createdAt < r.createdAt then r else acc

/-- The trigger's `SELECT ... ORDER BY created_at DESC LIMIT 1` over the
rows passing `matchesPrev`. -/
def prevVisit (logs : List VisitorLog) (new : VisitorLog) :
    Option VisitorLog :=
  match logs.filter (matchesPrev new) with
  | [] => none
  | x :: xs => some (xs.foldl laterOf x)

/-- Degrees to radians, as `plpgsql`'s `radians()`. -/
noncomputable def radians (x : ℚ) : ℝ :=
  (x : ℝ) * Real.pi / 180

/-- The trigger's distance formula: the spherical law of cosines on a
sphere of radius 6371 km,
`6371 * acos(cos(φ₁)cos(φ₂)cos(λ₂−λ₁) + sin(φ₁)sin(φ₂))`. -/
noncomputable def distanceKm (prevLat prevLon newLat newLon : ℚ) : ℝ :=
  6371 * Real.arccos
    (Real.cos (radians prevLat) * Real.cos (radians newLat) *
      Real.cos (radians newLon - radians prevLon) +
      Real.sin (radians prevLat) * Real.sin (radians newLat))

/-- The trigger's rapid-location-change test on a found previous visit:
less than one hour elapsed and more than 500 km travelled. Coordinates
are only consulted under `isSome` guards, where `getD 0` is the stored
value. -/
def rapidChangeCondition (prev new : VisitorLog) : Prop :=
  new.createdAt - prev.createdAt < 3600 ∧
  500 < distanceKm (prev.latitude.getD 0) (prev.longitude.getD 0)
    (new.latitude.getD 0) (new.longitude.getD 0)

/-- The Tor, VPN and hosting anomaly rows `detect_ip_anomalies` inserts
for the new row, in the trigger's order. -/
def staticAnomalyRows (new : VisitorLog) : List AnomalyRow :=
  (if new.isTor
    then [⟨new.id, new.trackingLinkId, .torUsage, .high⟩] else []) ++
  (if new.isVpn
    then [⟨new.id, new.trackingLinkId, .vpnUsage, .medium⟩] else []) ++
  (if new.isHosting
    then [⟨new.id, new.trackingLinkId, .datacenterIp, .medium⟩] else [])

open Classical in
/-- The rapid-location-change anomaly row, inserted when a previous
geolocated visit of the same link and session exists, the new row has
coordinates, and `rapidChangeCondition` holds. The branch on the
real-valued distance test is classical. -/
noncomputable def rapidAnomalyRows (logs : List VisitorLog)
    (new : VisitorLog) : List AnomalyRow :=
  match prevVisit logs new with
  | some prev =>
    if new.latitude.isSome && new.longitude.isSome then
      if rapidChangeCondition prev new then
        [⟨new.id, new.trackingLinkId, .rapidLocationChange, .high⟩]
      else []
    else []
  | none => []

/-- `detect_ip_anomalies` (BEFORE INSERT): the anomaly rows the trigger
*attempts* to insert, and the new row with
`anomaly_score := LEAST(count * 25.0, 100.0)` and
`is_suspicious := count > 0`. Each attempted insert carries
`visitor_log_id = NEW.id`, and since the trigger runs BEFORE the
`visitor_ip_logs` row exists, it violates the non-deferrable
`ip_anomaly_detection.visitor_log_id` foreign key and raises, aborting
the whole statement — see `insertVisitorLog`. -/
noncomputable def detectIpAnomalies (logs : List VisitorLog)
    (new : VisitorLog) : List AnomalyRow × VisitorLog :=
  let rows := staticAnomalyRows new ++ rapidAnomalyRows logs new
  (rows,
   { new with
     anomalyScore := min ((rows.length : ℚ) * 25) 100,
     isSuspicious := decide (0 < rows.length) })

/-- SQL `x = ANY(arr)` used as a `CASE WHEN` condition: true iff some
(non-null) element equals the non-null value `x`; a `NULL` probe or only
`NULL` elements yield not-true. -/
def sqlAnyEq {α : Type} [DecidableEq α] (x : Option α)
    (arr : List (Option α)) : Bool :=
  match x with
  | none => false
  | some v => arr.contains (some v)

/-- The `WHERE tracking_link_id = NEW.tracking_link_id AND session_id =
NEW.session_id` condition of `update_visitor_session`, under SQL null
semantics. -/
def sessionMatches (s : SessionRow) (new : VisitorLog) : Bool :=
  sqlEq s.trackingLinkId new.trackingLinkId &&
  sqlEq (some s.sessionId) new.sessionId

/-- The `UPDATE visitor_sessions SET ...` of `update_visitor_session`:
note the outer `array_append(..., NULL)` around each array column, which
appends a `NULL` element on every update. -/
def applySessionUpdate (s : SessionRow) (new : VisitorLog) : SessionRow :=
  { s with
    lastVisit := new.createdAt,
    totalVisits := s.totalVisits + 1,
    totalPageViews := s.totalPageViews + new.pageViews,
    uniqueIps :=
      (if sqlAnyEq (some new.ipAddress) s.uniqueIps then s.uniqueIps
       else s.uniqueIps ++ [some new.ipAddress]) ++ [none],
    countries :=
      (if sqlAnyEq new.country s.countries then s.countries
       else s.countries ++ [new.country]) ++ [none],
    userAgents :=
      (if sqlAnyEq new.userAgent s.userAgents then s.userAgents
       else s.userAgents ++ [new.userAgent]) ++ [none],
    isSuspicious := s.isSuspicious || new.isSuspicious }

/-- The `INSERT INTO visitor_sessions` branch of
`update_visitor_session`, for a log row whose `session_id` is the
non-null `sid`. -/
def newSessionRow (new : VisitorLog) (sid : String) : SessionRow :=
  { trackingLinkId := new.trackingLinkId,
    sessionId := sid,
    ipAddress := new.ipAddress,
    firstVisit := new.createdAt,
    lastVisit := new.createdAt,
    totalVisits := 1,
    totalPageViews := new.pageViews,
    uniqueIps := [some new.ipAddress],
    countries := [new.country],
    userAgents := [new.userAgent],
    isSuspicious := new.isSuspicious }

/-- `update_visitor_session` (AFTER INSERT): update the found session row
(the `SELECT ... INTO` row, updated through its primary key — here the
first match, unique in reachable states) or insert a fresh one. -/
def updateVisitorSession (sessions : List SessionRow) (new : VisitorLog)
    (sid : String) : List SessionRow :=
  match sessions with
  | [] => [newSessionRow new sid]
  | s :: rest =>
    if sessionMatches s new then applySessionUpdate s new :: rest
    else s :: updateVisitorSession rest new sid

/-- The visitor-tracking tables the two triggers touch. -/
structure TrackingDB where
  logs : List VisitorLog
  sessions : List SessionRow
  anomalies : List AnomalyRow
deriving DecidableEq

/-- The tables before any insert. -/
def emptyTrackingDB : TrackingDB := ⟨[], [], []⟩

/-- One `INSERT INTO visitor_ip_logs`: run `detect_ip_anomalies`, add the
row, run `update_visitor_session`. The statement aborts (`none`) in two
cases: (a) the BEFORE trigger attempts any `ip_anomaly_detection`
insert — its `visitor_log_id = NEW.id` references a `visitor_ip_logs`
row that does not exist yet, so the foreign key raises; (b) a `NULL`
`session_id` makes the AFTER trigger insert a `visitor_sessions` row
violating its `session_id NOT NULL` constraint. Hence only
anomaly-free rows ever commit. -/
noncomputable def insertVisitorLog (db : TrackingDB) (new : VisitorLog) :
    Option TrackingDB :=
  if (detectIpAnomalies db.logs new).1 = [] then
    match (detectIpAnomalies db.logs new).2.sessionId with
    | some sid =>
      some ⟨db.logs ++ [(detectIpAnomalies db.logs new).2],
        updateVisitorSession db.sessions (detectIpAnomalies db.logs new).2
          sid,
        db.anomalies ++ (detectIpAnomalies db.logs new).1⟩
    | none => none
  else none

/-- A sequence of `visitor_ip_logs` inserts; an aborted statement leaves
the tables unchanged. -/
noncomputable def runInserts (db : TrackingDB) :
    List VisitorLog → TrackingDB
  | [] => db
  | r :: rest => runInserts ((insertVisitorLog db r).getD db) rest

/-- A `visitor_sessions` row carries the given (non-null) tracking link
and session id. -/
def sessPred (linkId : Nat) (sid : String) (s : SessionRow) : Bool :=
  decide (s.trackingLinkId = some linkId) && decide (s.sessionId = sid)

/-- A `visitor_ip_logs` row carries the given (non-null) tracking link
and session id. -/
def logPred (linkId : Nat) (sid : String) (r : VisitorLog) : Bool :=
  decide (r.trackingLinkId = some linkId) &&
  decide (r.sessionId = some sid)

/-- The `visitor_sessions` rows carrying a given (non-null) tracking link
and session id. -/
def pairSessions (db : TrackingDB) (linkId : Nat) (sid : String) :
    List SessionRow :=
  db.sessions.filter (sessPred linkId sid)

/-- The `visitor_ip_logs` rows carrying a given (non-null) tracking link
and session id. -/
def pairLogs (db : TrackingDB) (linkId : Nat) (sid : String) :
    List VisitorLog :=
  db.logs.filter (logPred linkId sid)

/-- The aggregation invariant `update_visitor_session` maintains for
pairs with a non-null tracking link: no session row while the pair has
no log rows, otherwise exactly one session row whose `total_visits`
counts the pair's log rows and whose `unique_ips` holds each of their
distinct IPs exactly once. -/
def sessionInv (db : TrackingDB) : Prop :=
  ∀ (linkId : Nat) (sid : String),
    (pairSessions db linkId sid = [] ∧ pairLogs db linkId sid = []) ∨
    (∃ s, pairSessions db linkId sid = [s] ∧
      s.totalVisits = (pairLogs db linkId sid).length ∧
      ∀ ip : String, s.uniqueIps.count (some ip) =
        (if ip ∈ (pairLogs db linkId sid).map (fun r => r.ipAddress)
         then 1 else 0))

/-- A log row with `NULL` `tracking_link_id`, used to exhibit duplicate
session rows. -/
def cexLogA : VisitorLog :=
  ⟨1, none, "1.1.1.1", none, none, none, none, false, false, false,
    some "s", 1, false, 0, 0⟩

/-- A second log row with `NULL` `tracking_link_id` and the same
session id. -/
def cexLogB : VisitorLog :=
  ⟨2, none, "2.2.2.2", none, none, none, none, false, false, false,
    some "s", 1, false, 0, 10⟩

/-- A log row with tracking link 5 and session `"s"`. -/
def cexLogC : VisitorLog :=
  ⟨1, some 5, "9.9.9.9", none, none, none, none, false, false, false,
    some "s", 1, false, 0, 0⟩

/-- A second log row of the same link and session, from another IP. -/
def cexLogD : VisitorLog :=
  ⟨2, some 5, "8.8.8.8", none, none, none, none, false, false, false,
    some "s", 1, false, 0, 5⟩

end IPRepo

namespace IPRepo

/-- **C4** — For every input string `ip`, `assessThreatLevel` computes the
weighted sum `5·[known malicious] + 3·[suspicious prefix] + 2·[datacenter]`
and returns `high` iff the score is at least 5, `medium` iff it is in
`[2, 5)`, and `low` iff it is below 2. -/
theorem assessThreatLevel_buckets (ip : String) :
    threatScore ip =
      5 * (if isKnownMaliciousIP ip then 1 else 0) +
      3 * (if isSuspiciousRange ip then 1 else 0) +
      2 * (if isDatacenterIP ip then 1 else 0) ∧
    (assessThreatLevel ip = .high ↔ 5 ≤ threatScore ip) ∧
    (assessThreatLevel ip = .medium ↔
      2 ≤ threatScore ip ∧ threatScore ip < 5) ∧
    (assessThreatLevel ip = .low ↔ threatScore ip < 2) := by
  unfold assessThreatLevel threatScore
  rcases h1 : isKnownMaliciousIP ip <;>
    rcases h2 : isSuspiciousRange ip <;>
    rcases h3 : isDatacenterIP ip <;>
    simp_all

/-- Every hardcoded known-malicious IP starts with one of the hardcoded
suspicious prefixes, so a malicious IP is always in a suspicious range. -/
theorem isSuspiciousRange_of_isKnownMaliciousIP (ip : String)
    (h : isKnownMaliciousIP ip = true) : isSuspiciousRange ip = true := by
  unfold isKnownMaliciousIP at h
  simp at h
  rcases h with h | h | h <;> subst h <;> decide

/-- **C9** — `assessThreatLevel` never returns `medium`: since
`isDatacenterIP` is definitionally `isSuspiciousRange` and every
known-malicious IP lies in a suspicious range, the score is always
0, 5, or 10, so the `[2, 5)` bucket is unreachable. -/
theorem assessThreatLevel_never_medium (ip : String) :
    (threatScore ip = 0 ∨ threatScore ip = 5 ∨ threatScore ip = 10) ∧
    assessThreatLevel ip ≠ .medium := by
  have hd : isDatacenterIP ip = isSuspiciousRange ip := rfl
  rcases h1 : isKnownMaliciousIP ip
  · rcases h2 : isSuspiciousRange ip <;>
      simp [assessThreatLevel, threatScore, h1, h2, hd]
  · have h2 := isSuspiciousRange_of_isKnownMaliciousIP ip h1
    simp [assessThreatLevel, threatScore, h1, h2, hd]

/-- **C7** — `analyzeBatch` never throws: a per-IP analysis that throws is
skipped, and the results list holds exactly one entry per successfully
analyzed IP, in input order. Formally it equals `filterMap` of the per-IP
outcome over the input list. -/
theorem analyzeBatch_eq_filterMap {α : Type}
    (analyze : String → Except Unit α) (ips : List String) :
    analyzeBatch analyze ips =
      ips.filterMap (fun ip => (analyze ip).toOption) := by
  induction ips with
  | nil => rfl
  | cons ip rest ih =>
    simp only [analyzeBatch, List.filterMap_cons]
    rcases h : analyze ip with e | r <;> simp [h, ih, Except.toOption]

/-- **C2** — A POST whose body parses to a JSON array of more than 50
elements gets the fixed 400 "Too many IPs" response and no upstream
request is issued; an array of at most 50 elements is forwarded upstream
as-is. -/
theorem ipProxy_caps_at_fifty (xs : List Json) (upstream : UpstreamOutcome) :
    (50 < xs.length →
      ipProxyHandler "POST" (some (.arr xs)) upstream =
        (⟨400, .json tooManyError⟩, [])) ∧
    (xs.length ≤ 50 →
      (ipProxyHandler "POST" (some (.arr xs)) upstream).2 = [.arr xs]) := by
  constructor
  · intro h
    simp [ipProxyHandler, h]
  · intro h
    rcases upstream with _ | ⟨st, body⟩
    · simp [ipProxyHandler, Nat.not_lt.mpr h]
    · rcases body with _ | d <;> by_cases hok : statusOk st = true <;>
        simp [ipProxyHandler, Nat.not_lt.mpr h, hok]

/-- Witness for `ipProxy_caps_at_fifty` at concrete arrays of 51 and 3
elements. -/
theorem ipProxy_caps_at_fifty_witness :
    (50 < (List.replicate 51 Json.null).length ∧
      ipProxyHandler "POST" (some (.arr (List.replicate 51 .null)))
          .fetchError = (⟨400, .json tooManyError⟩, [])) ∧
    ((List.replicate 3 Json.null).length ≤ 50 ∧
      (ipProxyHandler "POST" (some (.arr (List.replicate 3 .null)))
          .fetchError).2 = [.arr (List.replicate 3 .null)]) :=
  ⟨⟨by decide, (ipProxy_caps_at_fifty _ _).1 (by decide)⟩,
   ⟨by decide, (ipProxy_caps_at_fifty _ _).2 (by decide)⟩⟩

/-- **C3** — For a POST with a parsed array of at most 50 elements, when
the upstream API answers with an OK status and a JSON body, the handler
returns 200 with exactly that upstream JSON value re-serialized — nothing
added, removed, reordered, or modified — after exactly one upstream
request carrying the array. -/
theorem ipProxy_returns_upstream_unmodified (xs : List Json) (status : Nat)
    (d : Json) (hlen : xs.length ≤ 50) (hok : statusOk status = true) :
    ipProxyHandler "POST" (some (.arr xs)) (.response status (some d)) =
      (⟨200, .json d⟩, [.arr xs]) := by
  simp [ipProxyHandler, Nat.not_lt.mpr hlen, hok]

/-- Witness for `ipProxy_returns_upstream_unmodified` at the empty query
array and a one-element upstream answer. -/
theorem ipProxy_returns_upstream_unmodified_witness :
    ([] : List Json).length ≤ 50 ∧ statusOk 200 = true ∧
    ipProxyHandler "POST" (some (.arr []))
        (.response 200 (some (.arr [.str "x"]))) =
      (⟨200, .json (.arr [.str "x"])⟩, [.arr []]) :=
  ⟨by decide, by decide,
   ipProxy_returns_upstream_unmodified [] 200 (.arr [.str "x"])
     (by decide) (by decide)⟩

/-- **C6** — The upstream request is attempted at most once; when parsing
the POST body throws, or when an upstream request was issued and it
failed (network error or non-OK status), the handler returns the fixed
generic 500 body. -/
theorem ipProxy_failure_is_generic_500 (method : String)
    (parsed : Option Json) (upstream : UpstreamOutcome) :
    (ipProxyHandler method parsed upstream).2.length ≤ 1 ∧
    (method = "POST" → parsed = none →
      (ipProxyHandler method parsed upstream).1 =
        ⟨500, .json internalError⟩) ∧
    ((ipProxyHandler method parsed upstream).2 ≠ [] →
      upstreamFails upstream = true →
      (ipProxyHandler method parsed upstream).1 =
        ⟨500, .json internalError⟩) := by
  by_cases hopt : method = "OPTIONS"
  · subst hopt; simp [ipProxyHandler]
  · by_cases hpost : method = "POST"
    · subst hpost
      rcases parsed with _ | j
      · simp [ipProxyHandler]
      · rcases j with _ | b | q | s | xs | fs <;>
          simp only [ipProxyHandler] <;>
          try simp
        by_cases hlen : 50 < xs.length
        · simp [hlen]
        · rcases upstream with _ | ⟨st, body⟩
          · simp [hlen, upstreamFails]
          · rcases body with _ | d <;>
              by_cases hok : statusOk st = true <;>
              simp [hlen, hok, upstreamFails]
    · simp [ipProxyHandler, hopt, hpost]

/-- Witness for `ipProxy_failure_is_generic_500`: a POST whose body fails
to parse, and a POST whose upstream fetch rejects. -/
theorem ipProxy_failure_is_generic_500_witness :
    (ipProxyHandler "POST" none .fetchError).1 =
      ⟨500, .json internalError⟩ ∧
    (ipProxyHandler "POST" (some (.arr [])) .fetchError).2 ≠ [] ∧
    upstreamFails .fetchError = true ∧
    (ipProxyHandler "POST" (some (.arr [])) .fetchError).1 =
      ⟨500, .json internalError⟩ :=
  ⟨(ipProxy_failure_is_generic_500 "POST" none .fetchError).2.1 rfl rfl,
   by simp [ipProxyHandler],
   rfl,
   (ipProxy_failure_is_generic_500 "POST" (some (.arr []))
       .fetchError).2.2 (by simp [ipProxyHandler]) rfl⟩

/-- Membership is preserved by ordered insertion. -/
theorem mem_insertByCreatedAtDesc (a x : AlertRow) (l : List AlertRow) :
    x ∈ insertByCreatedAtDesc a l ↔ x = a ∨ x ∈ l := by
  induction l with
  | nil => simp [insertByCreatedAtDesc]
  | cons b rest ih =>
    by_cases h : b.createdAt ≤ a.createdAt
    · simp [insertByCreatedAtDesc, h]
    · simp [insertByCreatedAtDesc, h, ih]
      tauto

/-- Membership is preserved by the descending sort. -/
theorem mem_sortByCreatedAtDesc (x : AlertRow) (l : List AlertRow) :
    x ∈ sortByCreatedAtDesc l ↔ x ∈ l := by
  induction l with
  | nil => simp [sortByCreatedAtDesc]
  | cons a rest ih =>
    simp [sortByCreatedAtDesc, mem_insertByCreatedAtDesc, ih]

/-- **C10** — `getUnreadAlerts` returns only rows with `is_read = false`
and `expires_at` strictly earlier than the query time: only
already-expired unread alerts. An unread alert whose `expires_at` lies in
the future is never returned. -/
theorem getUnreadAlerts_only_expired_unread (table : List AlertRow)
    (now : ℚ) (a : AlertRow) (h : a ∈ getUnreadAlerts table now) :
    a.isRead = false ∧ a.expiresAt < now := by
  unfold getUnreadAlerts at h
  rw [mem_sortByCreatedAtDesc, List.mem_filter] at h
  have hb := h.2
  simp only [Bool.and_eq_true, Bool.not_eq_true', decide_eq_true_eq] at hb
  exact hb

/-- Witness for `getUnreadAlerts_only_expired_unread` on a one-row table
holding an expired unread alert queried at time 0. -/
theorem getUnreadAlerts_only_expired_unread_witness :
    (⟨1, false, 0, -1⟩ : AlertRow) ∈ getUnreadAlerts [⟨1, false, 0, -1⟩] 0 ∧
    ((⟨1, false, 0, -1⟩ : AlertRow).isRead = false ∧
      (⟨1, false, 0, -1⟩ : AlertRow).expiresAt < 0) :=
  ⟨by decide,
   getUnreadAlerts_only_expired_unread [⟨1, false, 0, -1⟩] 0 _ (by decide)⟩

/-- **C5, counterexample** — The claim fails as stated: with a single
tracking link owned by user 7, the anonymous caller (whose `auth.uid()`
is `NULL`) may SELECT the `visitor_sessions` row of that link even though
the row is not owned by the anonymous caller. -/
theorem rls_claim_counterexample :
    visitorSessionsAllowed ⟨.anon, none⟩ ⟨[⟨1, some 7⟩], [], []⟩
        (some 1) .select = true ∧
    linkOwned ⟨.anon, none⟩ ⟨[⟨1, some 7⟩], [], []⟩ (some 1) = false := by
  decide

/-- **C5, amended** — For authenticated callers the live policies gate
access as follows: tracking links, visitor logs, visitor sessions,
anomaly detections and analysis results are reachable exactly when owned
(directly or via an owned tracking link / analysis session; on the
link-derived tables only SELECT is permitted). On the three
team-enabled tables (`ip_analysis_sessions`, `performance_diagnostics`,
`program_analysis`) the teams migration's own-or-team policy is exact:
SELECT/DELETE need ownership or active team membership of the row's
team, INSERT needs ownership or active membership with the write
permission, and UPDATE needs both. -/
theorem rls_authenticated_owner_scoped (c : Caller) (db : PolicyDB)
    (op : SqlOp) (ownerId linkId sessId teamId : Option Nat)
    (h : c.role = .authenticated) :
    trackingLinksAllowed c ownerId op = sqlEq c.uid ownerId ∧
    visitorLogsAllowed c db linkId op =
      (decide (op = .select) && linkOwned c db linkId) ∧
    visitorSessionsAllowed c db linkId op =
      (decide (op = .select) && linkOwned c db linkId) ∧
    anomalyDetectionAllowed c db linkId op =
      (decide (op = .select) && linkOwned c db linkId) ∧
    analysisResultsAllowed c db sessId op =
      analysisSessionOwned c db sessId ∧
    analysisSessionsAllowed c db ownerId teamId op =
      (if op = .insert then
        sqlEq c.uid ownerId || writableTeamMemberOf c db teamId
       else if op = .update then
        (sqlEq c.uid ownerId || teamMemberOf c db teamId) &&
        (sqlEq c.uid ownerId || writableTeamMemberOf c db teamId)
       else sqlEq c.uid ownerId || teamMemberOf c db teamId) ∧
    performanceDiagnosticsAllowed c db ownerId teamId op =
      (if op = .insert then
        sqlEq c.uid ownerId || writableTeamMemberOf c db teamId
       else if op = .update then
        (sqlEq c.uid ownerId || teamMemberOf c db teamId) &&
        (sqlEq c.uid ownerId || writableTeamMemberOf c db teamId)
       else sqlEq c.uid ownerId || teamMemberOf c db teamId) ∧
    programAnalysisAllowed c db ownerId teamId op =
      (if op = .insert then
        sqlEq c.uid ownerId || writableTeamMemberOf c db teamId
       else if op = .update then
        (sqlEq c.uid ownerId || teamMemberOf c db teamId) &&
        (sqlEq c.uid ownerId || writableTeamMemberOf c db teamId)
       else sqlEq c.uid ownerId || teamMemberOf c db teamId) := by
  have hanon : c.role ≠ .anon := by rw [h]; intro hc; cases hc
  refine ⟨?_, ?_, ?_, ?_, ?_, ?_, ?_, ?_⟩ <;>
    cases op <;>
    simp [trackingLinksAllowed, visitorLogsAllowed, visitorSessionsAllowed,
      anomalyDetectionAllowed, analysisSessionsAllowed,
      analysisResultsAllowed, performanceDiagnosticsAllowed,
      programAnalysisAllowed, teamTableAllowed, teamUsingClause,
      teamCheckClause, h, hanon]

/-- Witness for `rls_authenticated_owner_scoped`: the authenticated
caller with uid 7 selecting against a database holding one tracking
link and one analysis session owned by user 7, and one active
team-member row. -/
theorem rls_authenticated_owner_scoped_witness :
    (⟨.authenticated, some 7⟩ : Caller).role = .authenticated ∧
    (trackingLinksAllowed ⟨.authenticated, some 7⟩ (some 7) .select =
      sqlEq (some 7) (some 7) ∧
    visitorLogsAllowed ⟨.authenticated, some 7⟩
        ⟨[⟨1, some 7⟩], [⟨2, some 7⟩], [⟨3, 8, true, some true⟩]⟩
        (some 1) .select =
      (decide (SqlOp.select = .select) &&
        linkOwned ⟨.authenticated, some 7⟩
          ⟨[⟨1, some 7⟩], [⟨2, some 7⟩], [⟨3, 8, true, some true⟩]⟩
          (some 1)) ∧
    visitorSessionsAllowed ⟨.authenticated, some 7⟩
        ⟨[⟨1, some 7⟩], [⟨2, some 7⟩], [⟨3, 8, true, some true⟩]⟩
        (some 1) .select =
      (decide (SqlOp.select = .select) &&
        linkOwned ⟨.authenticated, some 7⟩
          ⟨[⟨1, some 7⟩], [⟨2, some 7⟩], [⟨3, 8, true, some true⟩]⟩
          (some 1)) ∧
    anomalyDetectionAllowed ⟨.authenticated, some 7⟩
        ⟨[⟨1, some 7⟩], [⟨2, some 7⟩], [⟨3, 8, true, some true⟩]⟩
        (some 1) .select =
      (decide (SqlOp.select = .select) &&
        linkOwned ⟨.authenticated, some 7⟩
          ⟨[⟨1, some 7⟩], [⟨2, some 7⟩], [⟨3, 8, true, some true⟩]⟩
          (some 1)) ∧
    analysisResultsAllowed ⟨.authenticated, some 7⟩
        ⟨[⟨1, some 7⟩], [⟨2, some 7⟩], [⟨3, 8, true, some true⟩]⟩
        (some 2) .select =
      analysisSessionOwned ⟨.authenticated, some 7⟩
        ⟨[⟨1, some 7⟩], [⟨2, some 7⟩], [⟨3, 8, true, some true⟩]⟩
        (some 2) ∧
    analysisSessionsAllowed ⟨.authenticated, some 7⟩
        ⟨[⟨1, some 7⟩], [⟨2, some 7⟩], [⟨3, 8, true, some true⟩]⟩
        (some 7) (some 3) .select =
      (if SqlOp.select = SqlOp.insert then
        sqlEq (some 7) (some 7) ||
          writableTeamMemberOf ⟨.authenticated, some 7⟩
            ⟨[⟨1, some 7⟩], [⟨2, some 7⟩], [⟨3, 8, true, some true⟩]⟩
            (some 3)
       else if SqlOp.select = SqlOp.update then
        (sqlEq (some 7) (some 7) ||
          teamMemberOf ⟨.authenticated, some 7⟩
            ⟨[⟨1, some 7⟩], [⟨2, some 7⟩], [⟨3, 8, true, some true⟩]⟩
            (some 3)) &&
        (sqlEq (some 7) (some 7) ||
          writableTeamMemberOf ⟨.authenticated, some 7⟩
            ⟨[⟨1, some 7⟩], [⟨2, some 7⟩], [⟨3, 8, true, some true⟩]⟩
            (some 3))
       else sqlEq (some 7) (some 7) ||
        teamMemberOf ⟨.authenticated, some 7⟩
          ⟨[⟨1, some 7⟩], [⟨2, some 7⟩], [⟨3, 8, true, some true⟩]⟩
          (some 3)) ∧
    performanceDiagnosticsAllowed ⟨.authenticated, some 7⟩
        ⟨[⟨1, some 7⟩], [⟨2, some 7⟩], [⟨3, 8, true, some true⟩]⟩
        (some 7) (some 3) .select =
      (if SqlOp.select = SqlOp.insert then
        sqlEq (some 7) (some 7) ||
          writableTeamMemberOf ⟨.authenticated, some 7⟩
            ⟨[⟨1, some 7⟩], [⟨2, some 7⟩], [⟨3, 8, true, some true⟩]⟩
            (some 3)
       else if SqlOp.select = SqlOp.update then
        (sqlEq (some 7) (some 7) ||
          teamMemberOf ⟨.authenticated, some 7⟩
            ⟨[⟨1, some 7⟩], [⟨2, some 7⟩], [⟨3, 8, true, some true⟩]⟩
            (some 3)) &&
        (sqlEq (some 7) (some 7) ||
          writableTeamMemberOf ⟨.authenticated, some 7⟩
            ⟨[⟨1, some 7⟩], [⟨2, some 7⟩], [⟨3, 8, true, some true⟩]⟩
            (some 3))
       else sqlEq (some 7) (some 7) ||
        teamMemberOf ⟨.authenticated, some 7⟩
          ⟨[⟨1, some 7⟩], [⟨2, some 7⟩], [⟨3, 8, true, some true⟩]⟩
          (some 3)) ∧
    programAnalysisAllowed ⟨.authenticated, some 7⟩
        ⟨[⟨1, some 7⟩], [⟨2, some 7⟩], [⟨3, 8, true, some true⟩]⟩
        (some 7) (some 3) .select =
      (if SqlOp.select = SqlOp.insert then
        sqlEq (some 7) (some 7) ||
          writableTeamMemberOf ⟨.authenticated, some 7⟩
            ⟨[⟨1, some 7⟩], [⟨2, some 7⟩], [⟨3, 8, true, some true⟩]⟩
            (some 3)
       else if SqlOp.select = SqlOp.update then
        (sqlEq (some 7) (some 7) ||
          teamMemberOf ⟨.authenticated, some 7⟩
            ⟨[⟨1, some 7⟩], [⟨2, some 7⟩], [⟨3, 8, true, some true⟩]⟩
            (some 3)) &&
        (sqlEq (some 7) (some 7) ||
          writableTeamMemberOf ⟨.authenticated, some 7⟩
            ⟨[⟨1, some 7⟩], [⟨2, some 7⟩], [⟨3, 8, true, some true⟩]⟩
            (some 3))
       else sqlEq (some 7) (some 7) ||
        teamMemberOf ⟨.authenticated, some 7⟩
          ⟨[⟨1, some 7⟩], [⟨2, some 7⟩], [⟨3, 8, true, some true⟩]⟩
          (some 3))) :=
  ⟨rfl, rls_authenticated_owner_scoped ⟨.authenticated, some 7⟩
    ⟨[⟨1, some 7⟩], [⟨2, some 7⟩], [⟨3, 8, true, some true⟩]⟩ .select
    (some 7) (some 1) (some 2) (some 3) rfl⟩

/-- `laterOf` returns one of its two arguments. -/
theorem laterOf_eq_or (x y : VisitorLog) : laterOf x y = x ∨ laterOf x y = y := by
  unfold laterOf
  split <;> simp

/-- The fold picking the latest row returns a member of the list. -/
theorem foldl_laterOf_mem (x : VisitorLog) (xs : List VisitorLog) :
    xs.foldl laterOf x ∈ x :: xs := by
  induction xs generalizing x with
  | nil => simp
  | cons y ys ih =>
    simp only [List.foldl_cons]
    rcases laterOf_eq_or x y with he | he <;> rw [he]
    · rcases List.mem_cons.mp (ih x) with h | h <;> simp [h]
    · rcases List.mem_cons.mp (ih y) with h | h <;> simp [h]

/-- Neither argument of `laterOf` is later than the result. -/
theorem le_laterOf (x y : VisitorLog) :
    x.createdAt ≤ (laterOf x y).createdAt ∧
    y.createdAt ≤ (laterOf x y).createdAt := by
  by_cases h : x.createdAt < y.createdAt
  · simp only [laterOf, if_pos h]
    exact ⟨le_of_lt h, le_refl _⟩
  · simp only [laterOf, if_neg h]
    exact ⟨le_refl _, le_of_not_lt h⟩

/-- The fold picking the latest row dominates every listed row. -/
theorem foldl_laterOf_ge (x : VisitorLog) (xs : List VisitorLog) :
    ∀ q ∈ x :: xs, q.createdAt ≤ (xs.foldl laterOf x).createdAt := by
  induction xs generalizing x with
  | nil =>
    intro q hq
    simp only [List.mem_singleton] at hq
    subst hq
    simp
  | cons y ys ih =>
    intro q hq
    simp only [List.foldl_cons]
    have hstep := ih (laterOf x y) (laterOf x y) (List.mem_cons_self _ _)
    rcases List.mem_cons.mp hq with h | h
    · rw [h]
      exact le_trans (le_laterOf x y).1 hstep
    · rcases List.mem_cons.mp h with h | h
      · rw [h]
        exact le_trans (le_laterOf x y).2 hstep
      · exact ih (laterOf x y) q (List.mem_cons_of_mem _ h)

/-- A found `prev_visit` is a matching row no other matching row
postdates. -/
theorem prevVisit_some_spec (logs : List VisitorLog) (new p : VisitorLog)
    (h : prevVisit logs new = some p) :
    p ∈ logs.filter (matchesPrev new) ∧
    ∀ q ∈ logs.filter (matchesPrev new), q.createdAt ≤ p.createdAt := by
  unfold prevVisit at h
  rcases hf : logs.filter (matchesPrev new) with _ | ⟨x, xs⟩ <;> rw [hf] at h
  · cases h
  · injection h with h
    subst h
    exact ⟨hf ▸ foldl_laterOf_mem x xs, hf ▸ foldl_laterOf_ge x xs⟩

/-- `prev_visit` is empty exactly when no row matches. -/
theorem prevVisit_none_iff (logs : List VisitorLog) (new : VisitorLog) :
    prevVisit logs new = none ↔ logs.filter (matchesPrev new) = [] := by
  unfold prevVisit
  rcases hf : logs.filter (matchesPrev new) with _ | ⟨x, xs⟩ <;> simp

/-- When matching rows have pairwise distinct timestamps, the query
returns any matching row that dominates all matching rows. -/
theorem prevVisit_eq_of_max (logs : List VisitorLog) (new p : VisitorLog)
    (hdist : (logs.filter (matchesPrev new)).Pairwise
      (fun a b => a.createdAt ≠ b.createdAt))
    (hp : p ∈ logs.filter (matchesPrev new))
    (hmax : ∀ q ∈ logs.filter (matchesPrev new),
      q.createdAt ≤ p.createdAt) :
    prevVisit logs new = some p := by
  rcases hq : prevVisit logs new with _ | q
  · rw [prevVisit_none_iff] at hq
    rw [hq] at hp
    cases hp
  · obtain ⟨hq1, hq2⟩ := prevVisit_some_spec logs new q hq
    by_cases hpq : p = q
    · rw [hpq]
    · have hsym : Symmetric (fun a b : VisitorLog => a.createdAt ≠ b.createdAt) :=
        fun a b hab he => hab he.symm
      have hne : p.createdAt ≠ q.createdAt := hdist.forall hsym hp hq1 hpq
      have h1 : q.createdAt ≤ p.createdAt := hmax q hq1
      have h2 : p.createdAt ≤ q.createdAt := hq2 p hp
      exact absurd (le_antisymm h2 h1) hne

/-- A member of a conditional singleton is that singleton's element. -/
theorem mem_ite_singleton {c : Prop} [Decidable c] (a r : AnomalyRow)
    (h : a ∈ if c then [r] else []) : a = r := by
  split at h
  · simpa using h
  · cases h

/-- The Tor/VPN/hosting inserts never carry the rapid-location-change
anomaly type. -/
theorem staticAnomalyRows_no_rapid (new : VisitorLog) (a : AnomalyRow)
    (ha : a ∈ staticAnomalyRows new) :
    a.anomalyType ≠ .rapidLocationChange := by
  unfold staticAnomalyRows at ha
  rcases List.mem_append.mp ha with h | h
  · rcases List.mem_append.mp h with h | h <;>
      rw [mem_ite_singleton _ _ h] <;> intro hc <;> cases hc
  · rw [mem_ite_singleton _ _ h]
    intro hc
    cases hc

/-- Every row the rapid-location check inserts carries the
rapid-location-change anomaly type. -/
theorem rapidAnomalyRows_all_rapid (logs : List VisitorLog)
    (new : VisitorLog) (a : AnomalyRow)
    (ha : a ∈ rapidAnomalyRows logs new) :
    a.anomalyType = .rapidLocationChange := by
  unfold rapidAnomalyRows at ha
  rcases hp : prevVisit logs new with _ | prev <;> simp only [hp] at ha
  · cases ha
  · by_cases h1 : (new.latitude.isSome && new.longitude.isSome) = true
    · rw [if_pos h1] at ha
      by_cases h2 : rapidChangeCondition prev new
      · rw [if_pos h2] at ha
        simpa using congrArg AnomalyRow.anomalyType (List.mem_singleton.mp ha)
      · rw [if_neg h2] at ha
        cases ha
    · rw [if_neg h1] at ha
      cases ha

/-- The rapid-location check fires exactly when a previous geolocated
visit exists, the new row is geolocated, and the time/distance test
holds. -/
theorem rapidAnomalyRows_ne_nil_iff (logs : List VisitorLog)
    (new : VisitorLog) :
    rapidAnomalyRows logs new ≠ [] ↔
    ∃ prev, prevVisit logs new = some prev ∧
      new.latitude.isSome = true ∧ new.longitude.isSome = true ∧
      rapidChangeCondition prev new := by
  unfold rapidAnomalyRows
  rcases hp : prevVisit logs new with _ | prev
  · simp
  · simp only [hp, Option.some.injEq]
    by_cases h1 : (new.latitude.isSome && new.longitude.isSome) = true
    · rw [if_pos h1]
      rw [Bool.and_eq_true] at h1
      obtain ⟨hla, hlo⟩ := h1
      by_cases h2 : rapidChangeCondition prev new
      · rw [if_pos h2]
        simp only [ne_eq, List.cons_ne_nil, not_false_iff, true_iff]
        exact ⟨prev, rfl, hla, hlo, h2⟩
      · rw [if_neg h2]
        simp only [ne_eq, not_true_eq_false, false_iff, not_exists]
        rintro p ⟨hpe, _, _, hc⟩
        exact h2 (hpe ▸ hc)
    · rw [if_neg h1]
      simp only [ne_eq, not_true_eq_false, false_iff, not_exists]
      rintro p ⟨_, hla, hlo, _⟩
      rw [Bool.and_eq_true] at h1
      exact h1 ⟨hla, hlo⟩

/-- The trigger records a rapid-location-change anomaly exactly when the
rapid-location check fires. -/
theorem detect_rapid_mem_iff (logs : List VisitorLog) (new : VisitorLog) :
    (∃ a ∈ (detectIpAnomalies logs new).1,
      a.anomalyType = .rapidLocationChange) ↔
    rapidAnomalyRows logs new ≠ [] := by
  have hfst : (detectIpAnomalies logs new).1 =
      staticAnomalyRows new ++ rapidAnomalyRows logs new := rfl
  rw [hfst]
  constructor
  · rintro ⟨a, ha, hty⟩
    rcases List.mem_append.mp ha with h | h
    · exact absurd hty (staticAnomalyRows_no_rapid new a h)
    · intro hnil
      rw [hnil] at h
      cases h
  · intro hne
    obtain ⟨a, ha⟩ := List.exists_mem_of_ne_nil _ hne
    exact ⟨a, List.mem_append_right _ ha,
      rapidAnomalyRows_all_rapid logs new a ha⟩

/-- The intent of the trigger body: `detect_ip_anomalies` *attempts* to
insert a `rapid_location_change` anomaly iff there is a most recent
prior row of the same tracking link and session with non-null
coordinates (`matchesPrev`), the new row also has non-null coordinates,
the time difference is strictly under one hour, and the great-circle
distance (radius 6371 km) exceeds 500 km. Prior matching rows are
assumed to carry pairwise distinct timestamps, which makes the query's
`ORDER BY created_at DESC LIMIT 1` determinate. In the program the
attempt never commits — the insert violates the `visitor_log_id`
foreign key and aborts the statement (see
`detect_ip_anomalies_never_records`). -/
theorem detect_rapid_location_change_iff (logs : List VisitorLog)
    (new : VisitorLog)
    (hdist : (logs.filter (matchesPrev new)).Pairwise
      (fun a b => a.createdAt ≠ b.createdAt)) :
    (∃ a ∈ (detectIpAnomalies logs new).1,
      a.anomalyType = .rapidLocationChange) ↔
    (∃ p, (p ∈ logs ∧ matchesPrev new p = true ∧
        ∀ q ∈ logs, matchesPrev new q = true →
          q.createdAt ≤ p.createdAt) ∧
      new.latitude.isSome = true ∧ new.longitude.isSome = true ∧
      new.createdAt - p.createdAt < 3600 ∧
      500 < distanceKm (p.latitude.getD 0) (p.longitude.getD 0)
        (new.latitude.getD 0) (new.longitude.getD 0)) := by
  rw [detect_rapid_mem_iff, rapidAnomalyRows_ne_nil_iff]
  constructor
  · rintro ⟨prev, hpv, hla, hlo, hcond⟩
    obtain ⟨hmem, hmax⟩ := prevVisit_some_spec logs new prev hpv
    rw [List.mem_filter] at hmem
    refine ⟨prev, ⟨hmem.1, hmem.2, ?_⟩, hla, hlo, hcond.1, hcond.2⟩
    intro q hq hmq
    exact hmax q (List.mem_filter.mpr ⟨hq, hmq⟩)
  · rintro ⟨p, ⟨hpl, hpm, hmax⟩, hla, hlo, ht, hd⟩
    refine ⟨p, ?_, hla, hlo, ht, hd⟩
    exact prevVisit_eq_of_max logs new p hdist
      (List.mem_filter.mpr ⟨hpl, hpm⟩)
      (fun q hq => hmax q (List.mem_filter.mp hq).1
        (List.mem_filter.mp hq).2)

/-- Witness for `detect_rapid_location_change_iff`: on an empty log table
the distinctness hypothesis holds vacuously, and the theorem yields that
the insert records no rapid-location-change anomaly. -/
theorem detect_rapid_location_change_iff_witness :
    (([] : List VisitorLog).filter
        (matchesPrev ⟨1, some 1, "1.1.1.1", none, none, none, none,
          false, false, false, some "s", 1, false, 0, 0⟩)).Pairwise
      (fun a b => a.createdAt ≠ b.createdAt) ∧
    ¬(∃ a ∈ (detectIpAnomalies []
        ⟨1, some 1, "1.1.1.1", none, none, none, none,
          false, false, false, some "s", 1, false, 0, 0⟩).1,
      a.anomalyType = .rapidLocationChange) :=
  ⟨List.Pairwise.nil,
   fun h => by
    rcases (detect_rapid_location_change_iff []
        ⟨1, some 1, "1.1.1.1", none, none, none, none,
          false, false, false, some "s", 1, false, 0, 0⟩
        List.Pairwise.nil).mp h with ⟨p, ⟨hp, _⟩, _⟩
    cases hp⟩

/-- **C8, counterexample** — Two inserts with `NULL` `tracking_link_id`
and the same session id: the pair (`NULL`, `"s"`) appears in two log
rows, yet `update_visitor_session` creates two `visitor_sessions` rows
for it (SQL `NULL = NULL` is not true, so the trigger's session lookup
never finds the earlier row), refuting "exactly one visitor_sessions
row". -/
theorem session_duplicate_counterexample :
    ((runInserts emptyTrackingDB [cexLogA, cexLogB]).logs.countP
      (fun r => decide (r.trackingLinkId = none) &&
        decide (r.sessionId = some "s"))) = 2 ∧
    ((runInserts emptyTrackingDB [cexLogA, cexLogB]).sessions.countP
      (fun s => decide (s.trackingLinkId = none) &&
        decide (s.sessionId = "s"))) = 2 := by
  constructor <;> rfl

/-- SQL equality against a non-null value is ordinary equality. -/
theorem sqlEq_some_right {α : Type} [DecidableEq α] (a : Option α) (y : α) :
    sqlEq a (some y) = decide (a = some y) := by
  rcases a with _ | x <;> simp [sqlEq]

/-- SQL equality against `NULL` is never true. -/
theorem sqlEq_none_right {α : Type} [DecidableEq α] (a : Option α) :
    sqlEq a none = false := by
  rcases a with _ | x <;> rfl

/-- The session update leaves the row's identifying pair unchanged, so
the lookup condition is stable under it. -/
theorem sessionMatches_applySessionUpdate (s : SessionRow)
    (new newR : VisitorLog) :
    sessionMatches (applySessionUpdate s newR) new = sessionMatches s new :=
  rfl

/-- A log row with `NULL` `tracking_link_id` matches no session row. -/
theorem sessionMatches_of_none (s : SessionRow) (new : VisitorLog)
    (h : new.trackingLinkId = none) : sessionMatches s new = false := by
  unfold sessionMatches
  rw [h, sqlEq_none_right]
  exact Bool.false_and _

/-- For a log row with non-null link and session, the trigger's lookup
condition is the pair predicate. -/
theorem sessionMatches_pair (s : SessionRow) (new : VisitorLog)
    (L : Nat) (S : String)
    (hL : new.trackingLinkId = some L) (hS : new.sessionId = some S) :
    sessionMatches s new = sessPred L S s := by
  unfold sessionMatches sessPred
  rw [hL, hS, sqlEq_some_right, sqlEq_some_right]
  simp

/-- When no session row matches, `update_visitor_session` appends a
fresh session row. -/
theorem updateVisitorSession_no_match (sessions : List SessionRow)
    (new : VisitorLog) (sid : String)
    (h : ∀ s ∈ sessions, sessionMatches s new = false) :
    updateVisitorSession sessions new sid =
      sessions ++ [newSessionRow new sid] := by
  induction sessions with
  | nil => rfl
  | cons s rest ih =>
    unfold updateVisitorSession
    rw [if_neg (by simp [h s (List.mem_cons_self _ _)])]
    rw [ih (fun t ht => h t (List.mem_cons_of_mem _ ht))]
    rfl

/-- Rows of a pair the inserted log row does not carry are untouched by
`update_visitor_session`. -/
theorem filter_updateVisitorSession_other (sessions : List SessionRow)
    (new : VisitorLog) (sid : String) (p : SessionRow → Bool)
    (hmp : ∀ s, sessionMatches s new = true → p s = false)
    (hupd : ∀ s, p (applySessionUpdate s new) = p s)
    (hnew : p (newSessionRow new sid) = false) :
    (updateVisitorSession sessions new sid).filter p =
      sessions.filter p := by
  induction sessions with
  | nil => simp [updateVisitorSession, hnew]
  | cons s rest ih =>
    unfold updateVisitorSession
    by_cases hm : sessionMatches s new = true
    · rw [if_pos hm]
      have hps : p s = false := hmp s hm
      simp [List.filter_cons, hupd s, hps]
    · rw [if_neg hm]
      simp [List.filter_cons, ih]

/-- When exactly one session row matches, `update_visitor_session`
replaces it with its update, which is then the unique matching row. -/
theorem filter_updateVisitorSession_match (sessions : List SessionRow)
    (new : VisitorLog) (sid : String) (s0 : SessionRow)
    (hf : sessions.filter (fun s => sessionMatches s new) = [s0]) :
    (updateVisitorSession sessions new sid).filter
        (fun s => sessionMatches s new) =
      [applySessionUpdate s0 new] := by
  induction sessions with
  | nil => cases hf
  | cons s rest ih =>
    unfold updateVisitorSession
    by_cases hm : sessionMatches s new = true
    · rw [if_pos hm]
      simp only [List.filter_cons, hm, if_true, List.cons.injEq] at hf
      obtain ⟨rfl, h2⟩ := hf
      simp [List.filter_cons, sessionMatches_applySessionUpdate, hm, h2]
    · rw [if_neg hm]
      have hmf : sessionMatches s new = false := by simpa using hm
      simp only [List.filter_cons, hmf, Bool.false_eq_true, if_false] at hf
      simp only [List.filter_cons, hmf, Bool.false_eq_true, if_false]
      exact ih hf

/-- One trigger-mediated insert preserves the session aggregation
invariant (the anomaly table plays no role in it). -/
theorem sessionInv_step (logs : List VisitorLog)
    (sessions : List SessionRow) (anoms anoms2 : List AnomalyRow)
    (row : VisitorLog) (sid : String)
    (hsid : row.sessionId = some sid)
    (hinv : sessionInv ⟨logs, sessions, anoms⟩) :
    sessionInv
      ⟨logs ++ [row], updateVisitorSession sessions row sid, anoms2⟩ := by
  intro L S
  rcases hL : row.trackingLinkId with _ | L0
  · -- NULL tracking link: no pair with a non-null link is affected.
    have hrowp : logPred L S row = false := by simp [logPred, hL]
    have h1 : pairLogs
        ⟨logs ++ [row], updateVisitorSession sessions row sid, anoms2⟩ L S =
        pairLogs ⟨logs, sessions, anoms⟩ L S := by
      show (logs ++ [row]).filter (logPred L S) = logs.filter (logPred L S)
      rw [List.filter_append]
      simp [hrowp]
    have h2 : pairSessions
        ⟨logs ++ [row], updateVisitorSession sessions row sid, anoms2⟩ L S =
        pairSessions ⟨logs, sessions, anoms⟩ L S := by
      show (updateVisitorSession sessions row sid).filter (sessPred L S) =
        sessions.filter (sessPred L S)
      apply filter_updateVisitorSession_other
      · intro s hm
        rw [sessionMatches_of_none s row hL] at hm
        cases hm
      · intro s
        rfl
      · simp [sessPred, newSessionRow, hL]
    rw [h1, h2]
    exact hinv L S
  · by_cases hpair : L = L0 ∧ S = sid
    · obtain ⟨hLe, hSe⟩ := hpair
      subst hLe
      subst hSe
      have hrowp : logPred L S row = true := by simp [logPred, hL, hsid]
      have hmatch : ∀ s, sessionMatches s row = sessPred L S s :=
        fun s => sessionMatches_pair s row L S hL hsid
      have hPLnew : pairLogs
          ⟨logs ++ [row], updateVisitorSession sessions row S, anoms2⟩
            L S =
          pairLogs ⟨logs, sessions, anoms⟩ L S ++ [row] := by
        show (logs ++ [row]).filter (logPred L S) =
          logs.filter (logPred L S) ++ [row]
        rw [List.filter_append]
        simp [hrowp]
      rcases hinv L S with ⟨hse, hle⟩ | ⟨s0, hs0, hv, hip⟩
      · -- no session yet: the trigger inserts a fresh one.
        right
        have hnomatch : ∀ s ∈ sessions, sessionMatches s row = false := by
          intro s hsm
          rw [hmatch s]
          have hnil : sessions.filter (sessPred L S) = [] := hse
          simpa using List.filter_eq_nil_iff.mp hnil s hsm
        have hupd := updateVisitorSession_no_match sessions row S hnomatch
        refine ⟨newSessionRow row S, ?_, ?_, ?_⟩
        · show (updateVisitorSession sessions row S).filter
            (sessPred L S) = _
          rw [hupd, List.filter_append]
          have hnil : sessions.filter (sessPred L S) = [] := hse
          rw [hnil]
          simp [sessPred, newSessionRow, hL]
        · rw [hPLnew, hle]
          simp [newSessionRow]
        · intro ip
          rw [hPLnew, hle]
          simp only [List.nil_append, List.map_cons, List.map_nil]
          by_cases hipe : ip = row.ipAddress
          · subst hipe
            simp [newSessionRow]
          · simp [newSessionRow, List.count_singleton', hipe,
              Ne.symm hipe]
      · -- one session: the trigger updates it in place.
        right
        have hfm : sessions.filter (fun s => sessionMatches s row) = [s0] := by
          rw [List.filter_congr (fun s _ => hmatch s)]
          exact hs0
        have hupdf := filter_updateVisitorSession_match sessions row S s0 hfm
        refine ⟨applySessionUpdate s0 row, ?_, ?_, ?_⟩
        · show (updateVisitorSession sessions row S).filter
            (sessPred L S) = _
          rw [List.filter_congr
            (fun s (_ : s ∈ updateVisitorSession sessions row S) =>
              (hmatch s).symm)]
          exact hupdf
        · show (applySessionUpdate s0 row).totalVisits = _
          rw [hPLnew]
          simp [applySessionUpdate, hv]
        · intro ip
          rw [hPLnew]
          show ((if sqlAnyEq (some row.ipAddress) s0.uniqueIps
              then s0.uniqueIps
              else s0.uniqueIps ++ [some row.ipAddress]) ++
                [none]).count (some ip) = _
          by_cases hin : sqlAnyEq (some row.ipAddress) s0.uniqueIps = true
          · rw [if_pos hin]
            have hmemu : (some row.ipAddress) ∈ s0.uniqueIps := by
              simpa [sqlAnyEq] using hin
            have hmem : row.ipAddress ∈
                (pairLogs ⟨logs, sessions, anoms⟩ L S).map
                  (fun r => r.ipAddress) := by
              by_contra hnm
              have h0 := hip row.ipAddress
              rw [if_neg hnm] at h0
              have hpos := List.count_pos_iff.mpr hmemu
              omega
            rw [List.count_append, hip ip]
            by_cases hm2 : ip ∈
                (pairLogs ⟨logs, sessions, anoms⟩ L S).map
                  (fun r => r.ipAddress)
            · simp [hm2]
            · have hne : ip ≠ row.ipAddress := fun he => hm2 (he ▸ hmem)
              simp [hm2, hne]
          · rw [if_neg hin]
            have hnmemu : (some row.ipAddress) ∉ s0.uniqueIps := by
              simpa [sqlAnyEq] using hin
            have hzero : s0.uniqueIps.count (some row.ipAddress) = 0 :=
              List.count_eq_zero.mpr hnmemu
            have hnm : row.ipAddress ∉
                (pairLogs ⟨logs, sessions, anoms⟩ L S).map
                  (fun r => r.ipAddress) := by
              intro hmm
              have h0 := hip row.ipAddress
              rw [if_pos hmm, hzero] at h0
              cases h0
            rw [List.count_append, List.count_append, hip ip]
            by_cases hipe : ip = row.ipAddress
            · subst hipe
              simp
              intro x hx he
              exact hnm (List.mem_map.mpr ⟨x, hx, he⟩)
            · have hc2 : ([some row.ipAddress] :
                  List (Option String)).count (some ip) = 0 := by
                simp [List.count_singleton', hipe, Ne.symm hipe]
              rw [hc2]
              by_cases hm2 : ip ∈
                  (pairLogs ⟨logs, sessions, anoms⟩ L S).map
                    (fun r => r.ipAddress)
              · simp [hm2]
              · simp [hm2, hipe]
    · -- a different pair is untouched.
      have hkey : ∀ (u : String), (u = sid) →
          (decide ((some L0 : Option Nat) = some L) && decide (u = S)) =
            false := by
        intro u hu
        subst hu
        by_cases heL : L0 = L
        · subst heL
          have hS : ¬(u = S) := fun hc => hpair ⟨rfl, hc.symm⟩
          simp [hS]
        · simp [heL]
      have hrowp : logPred L S row = false := by
        unfold logPred
        rw [hL, hsid]
        by_cases heL : L0 = L
        · subst heL
          have hS : ¬(sid = S) := fun hc => hpair ⟨rfl, hc.symm⟩
          simp [hS]
        · simp [heL]
      have h1 : pairLogs
          ⟨logs ++ [row], updateVisitorSession sessions row sid, anoms2⟩
            L S =
          pairLogs ⟨logs, sessions, anoms⟩ L S := by
        show (logs ++ [row]).filter (logPred L S) =
          logs.filter (logPred L S)
        rw [List.filter_append]
        simp [hrowp]
      have h2 : pairSessions
          ⟨logs ++ [row], updateVisitorSession sessions row sid, anoms2⟩
            L S =
          pairSessions ⟨logs, sessions, anoms⟩ L S := by
        show (updateVisitorSession sessions row sid).filter (sessPred L S) =
          sessions.filter (sessPred L S)
        apply filter_updateVisitorSession_other
        · intro s hm
          rw [sessionMatches_pair s row L0 sid hL hsid] at hm
          simp only [sessPred, Bool.and_eq_true, decide_eq_true_eq] at hm
          obtain ⟨hm1, hm2⟩ := hm
          show (decide (s.trackingLinkId = some L) &&
            decide (s.sessionId = S)) = false
          rw [hm1]
          exact hkey _ hm2
        · intro s
          rfl
        · show (decide ((newSessionRow row sid).trackingLinkId = some L) &&
            decide ((newSessionRow row sid).sessionId = S)) = false
          have ht : (newSessionRow row sid).trackingLinkId = some L0 := by
            simpa [newSessionRow] using hL
          rw [ht]
          exact hkey _ rfl
      rw [h1, h2]
      exact hinv L S

/-- Before any insert the aggregation invariant holds vacuously. -/
theorem sessionInv_empty : sessionInv emptyTrackingDB :=
  fun _ _ => Or.inl ⟨rfl, rfl⟩

/-- Each `visitor_ip_logs` insert — whether it commits or aborts —
preserves the aggregation invariant. -/
theorem sessionInv_insert (db : TrackingDB) (r : VisitorLog)
    (hinv : sessionInv db) :
    sessionInv ((insertVisitorLog db r).getD db) := by
  by_cases ha : (detectIpAnomalies db.logs r).1 = []
  · rcases hs : (detectIpAnomalies db.logs r).2.sessionId with _ | sid
    · simp only [insertVisitorLog, if_pos ha, hs, Option.getD_none]
      exact hinv
    · simp only [insertVisitorLog, if_pos ha, hs, Option.getD_some]
      exact sessionInv_step db.logs db.sessions db.anomalies _ _ sid hs hinv
  · simp only [insertVisitorLog, if_neg ha, Option.getD_none]
    exact hinv

/-- The aggregation invariant holds after any sequence of inserts. -/
theorem sessionInv_runInserts (db : TrackingDB) (ops : List VisitorLog)
    (hinv : sessionInv db) : sessionInv (runInserts db ops) := by
  induction ops generalizing db with
  | nil => exact hinv
  | cons r rest ih =>
    show sessionInv (runInserts ((insertVisitorLog db r).getD db) rest)
    exact ih _ (sessionInv_insert db r hinv)

/-- An insert whose BEFORE trigger attempts any anomaly insert aborts on
the `visitor_log_id` foreign-key violation. -/
theorem insertVisitorLog_aborts_of_anomaly (db : TrackingDB)
    (r : VisitorLog) (h : (detectIpAnomalies db.logs r).1 ≠ []) :
    insertVisitorLog db r = none := by
  simp [insertVisitorLog, h]

/-- One insert statement — committed or aborted — leaves the
`ip_anomaly_detection` table unchanged: an anomaly-free insert has
nothing to add, and an anomalous one aborts. -/
theorem anomalies_getD_insertVisitorLog (db : TrackingDB)
    (r : VisitorLog) :
    ((insertVisitorLog db r).getD db).anomalies = db.anomalies := by
  by_cases ha : (detectIpAnomalies db.logs r).1 = []
  · rcases hs : (detectIpAnomalies db.logs r).2.sessionId with _ | sid
    · simp [insertVisitorLog, if_pos ha, hs]
    · simp [insertVisitorLog, if_pos ha, hs, ha]
  · simp [insertVisitorLog, if_neg ha]

/-- `ip_anomaly_detection` is invariant under any insert sequence. -/
theorem runInserts_anomalies (db : TrackingDB) (ops : List VisitorLog) :
    (runInserts db ops).anomalies = db.anomalies := by
  induction ops generalizing db with
  | nil => rfl
  | cons r rest ih =>
    show (runInserts ((insertVisitorLog db r).getD db) rest).anomalies = _
    rw [ih, anomalies_getD_insertVisitorLog]

/-- **C1** — The program never records any anomaly row, in particular
never a `rapid_location_change` one: `detect_ip_anomalies` is a BEFORE
INSERT trigger, so each of its `ip_anomaly_detection` inserts references
`NEW.id` before the parent `visitor_ip_logs` row exists; the
non-deferrable `visitor_log_id` foreign key raises and the statement
aborts. The claimed iff therefore fails in the only direction anything
could be recorded: after any sequence of inserts the anomaly table is
empty. -/
theorem detect_ip_anomalies_never_records (ops : List VisitorLog) :
    (runInserts emptyTrackingDB ops).anomalies = [] ∧
    ¬∃ a ∈ (runInserts emptyTrackingDB ops).anomalies,
      a.anomalyType = .rapidLocationChange := by
  have h := runInserts_anomalies emptyTrackingDB ops
  refine ⟨h, ?_⟩
  rintro ⟨a, ha, _⟩
  rw [h] at ha
  cases ha

/-- **C8, amended** — After any sequence of inserts into
`visitor_ip_logs`, for every pair of a *non-null* tracking link and
session id appearing in some log row there is exactly one
`visitor_sessions` row; its `total_visits` equals the number of log rows
of that pair, and its `unique_ips` holds each distinct visitor IP of
those rows exactly once. (For a `NULL` tracking link the trigger's
lookup never matches and duplicate session rows accumulate; a `NULL`
session id aborts the insert on the `NOT NULL` constraint.) -/
theorem update_visitor_session_aggregates (ops : List VisitorLog)
    (L : Nat) (S : String) (ip : String)
    (happ : (runInserts emptyTrackingDB ops).logs.any (logPred L S) = true) :
    ∃ s, pairSessions (runInserts emptyTrackingDB ops) L S = [s] ∧
      s.totalVisits =
        (pairLogs (runInserts emptyTrackingDB ops) L S).length ∧
      (ip ∈ (pairLogs (runInserts emptyTrackingDB ops) L S).map
          (fun r => r.ipAddress) →
        s.uniqueIps.count (some ip) = 1) := by
  have hinv := sessionInv_runInserts emptyTrackingDB ops sessionInv_empty
  rcases hinv L S with ⟨hse, hle⟩ | ⟨s, hs, hv, hip⟩
  · exfalso
    rw [List.any_eq_true] at happ
    obtain ⟨r, hr, hpr⟩ := happ
    have hmem : r ∈ pairLogs (runInserts emptyTrackingDB ops) L S :=
      List.mem_filter.mpr ⟨hr, hpr⟩
    rw [hle] at hmem
    cases hmem
  · exact ⟨s, hs, hv, fun hm => by rw [hip ip, if_pos hm]⟩

/-- Witness for `update_visitor_session_aggregates`: two inserts for
tracking link 5 and session `"s"` from two IPs. -/
theorem update_visitor_session_aggregates_witness :
    (runInserts emptyTrackingDB [cexLogC, cexLogD]).logs.any
      (logPred 5 "s") = true ∧
    "9.9.9.9" ∈ (pairLogs (runInserts emptyTrackingDB [cexLogC, cexLogD])
      5 "s").map (fun r => r.ipAddress) ∧
    (∃ s, pairSessions (runInserts emptyTrackingDB [cexLogC, cexLogD])
        5 "s" = [s] ∧
      s.totalVisits =
        (pairLogs (runInserts emptyTrackingDB [cexLogC, cexLogD])
          5 "s").length ∧
      ("9.9.9.9" ∈ (pairLogs (runInserts emptyTrackingDB
            [cexLogC, cexLogD]) 5 "s").map (fun r => r.ipAddress) →
        s.uniqueIps.count (some "9.9.9.9") = 1)) :=
  ⟨rfl, by decide,
   update_visitor_session_aggregates [cexLogC, cexLogD] 5 "s" "9.9.9.9" rfl⟩

end IPRepo
